import Mathlib

/-!
Shallow embedding of the XRT kernel-driven scheduler (KDS) glue layer:
the xocl client, context and command paths of
src/runtime_src/core/pcie/driver/linux/xocl/userpf/xocl_kds.c and the
inline per-CU helpers of src/runtime_src/core/common/drv/include/xrt_cu.h.
The kds core (kds_add_context, kds_del_context, kds_fini_client) and the
CU credit backends are declared but not defined in the sources; they are
modelled from the specification, as marked on each definition.
-/

namespace XRT

/-- Error codes returned by the xocl KDS entry points (negative errnos in C). -/
inductive XErr where
  | EINVAL
  | EBUSY
  | ENOMEM
  | EDEADLK
  | ENOENT
deriving DecidableEq

/-- Values written into the ert_packet state word (ERT_CMD_STATE_* constants,
modelled as an enumeration of the distinct constants used in xocl_kds.c). -/
inductive ErtCmdState where
  | new
  | completed
  | error
  | timeout
  | abort
deriving DecidableEq

/-- Command status values of the kds core (KDS_* constants of kds_command.h,
modelled as an enumeration of the distinct constants). -/
inductive KdsCmdStatus where
  | new
  | running
  | completed
  | error
  | timeout
  | abort
deriving DecidableEq

/-- Which function performed a write to the ert_packet state word. -/
inductive WriteSrc where
  | ioctl
  | notify
deriving DecidableEq

/-- The client state touched by this layer: the recorded xclbin uuid
(client.xclbin_id, null when no context is open), the number of open
contexts (client.num_ctx, maintained by the kds core), and the event
counter read by poll (atomic_t event). -/
structure KdsClient where
  xclbin_id : Option Nat
  num_ctx : Nat
  event : Int
deriving DecidableEq

/-- Observable effects of one notify_execbuf call: the writes it performs on
the ert_packet state word, whether it put the gem buffer object back,
whether it scheduled the in-kernel callback work, and whether it
incremented the event counter and woke the waitq. -/
structure NotifyEffects where
  stateWrites : List (WriteSrc × ErtCmdState)
  gemReleased : Bool
  workScheduled : Bool
  eventIncremented : Bool
  wokeClient : Bool
deriving DecidableEq

/-- Embedding of notify_execbuf (xocl_kds.c lines 140 to 162): the if chain
writes the matching ERT_CMD_STATE value for the four terminal KDS statuses,
then the gem object is put unconditionally, then either the in-kernel
callback work is scheduled or the event counter is incremented and the
waitq woken. The second argument says whether xcmd has inkern_cb attached. -/
def notify_execbuf (status : KdsCmdStatus) (hasInkernCb : Bool)
    (client : KdsClient) : NotifyEffects × KdsClient :=
  let w : List (WriteSrc × ErtCmdState) :=
    if status = KdsCmdStatus.completed then [(WriteSrc.notify, ErtCmdState.completed)]
    else if status = KdsCmdStatus.error then [(WriteSrc.notify, ErtCmdState.error)]
    else if status = KdsCmdStatus.timeout then [(WriteSrc.notify, ErtCmdState.timeout)]
    else if status = KdsCmdStatus.abort then [(WriteSrc.notify, ErtCmdState.abort)]
    else []
  if hasInkernCb then
    (⟨w, true, true, false, false⟩, client)
  else
    (⟨w, true, false, true, true⟩, { client with event := client.event + 1 })

/-- Linux atomic_dec_if_positive: decrement unless the result would be
negative; the first component is the stored value, the second the returned
value (always old minus one). -/
def atomic_dec_if_positive (v : Int) : Int × Int :=
  let dec := v - 1
  if dec < 0 then (v, dec) else (dec, dec)

/-- The POLLIN readiness mask bit. -/
def POLLIN : Nat := 1

/-- Embedding of xocl_poll_client (xocl_kds.c lines 309 to 324): decrement
the event counter if positive; return no mask when the returned value is
minus one, POLLIN otherwise. First component is the new counter value. -/
def xocl_poll_client (event : Int) : Int × Nat :=
  let r := atomic_dec_if_positive event
  if r.2 = -1 then (r.1, 0) else (r.1, POLLIN)

/-- Wraparound modulus of the u32 counters. -/
def UINT32_MOD : Nat := 2 ^ 32

/-- Status deltas filled in by the CU driver check() call. -/
structure XcuStatus where
  num_done : Nat
  num_ready : Nat
deriving DecidableEq

/-- The xrt_cu accumulator fields touched by xrt_cu_check. -/
structure XrtCu where
  done_cnt : Nat
  ready_cnt : Nat
deriving DecidableEq

/-- Embedding of xrt_cu_check (xrt_cu.h lines 286 to 297): the deltas the
driver check() wrote into the status struct are added to the u32
accumulators. The status argument is the value the driver returned. -/
def xrt_cu_check (xcu : XrtCu) (status : XcuStatus) : XrtCu :=
  { xcu with
    done_cnt := (xcu.done_cnt + status.num_done) % UINT32_MOD
    ready_cnt := (xcu.ready_cnt + status.num_ready) % UINT32_MOD }

/-- Modelled from the spec: the CU credit backend state (xrt_cu_hls.c and
xrt_cu_plram.c are not among the sources; xrt_cu.h only declares the
credits and max_credits fields and documents the xcu_funcs contract). -/
structure XcuCore where
  credits : Nat
  max_credits : Nat
deriving DecidableEq

/-- Modelled from the spec: alloc_credit attempts to reserve one credit and
returns the new available count, zero when none was free (in which case
nothing is reserved). -/
def alloc_credit (core : XcuCore) : Int × XcuCore :=
  if 0 < core.credits then
    ((core.credits : Int) - 1, { core with credits := core.credits - 1 })
  else
    (0, core)

/-- Modelled from the spec: free_credit returns count credits to the pool. -/
def free_credit (core : XcuCore) (count : Nat) : XcuCore :=
  { core with credits := core.credits + count }

/-- Modelled from the spec: peek_credit reports the available count with no
side effect; the state component is returned unchanged. -/
def peek_credit (core : XcuCore) : Int × XcuCore :=
  ((core.credits : Int), core)

/-- Client plus the number of icap bitstream lock references held on behalf
of this client (the external xocl_icap_lock_bitstream collaborator is
modelled as a per-client reference count; unlocking an unheld lock is a
rejected no-op on the icap side). -/
structure CtxState where
  client : KdsClient
  icapLock : Nat
deriving DecidableEq

/-- Modelled from the spec: kds_add_context inserts (cu_index, mode) into
the client context map when the mode rules admit it, incrementing
num_ctx; on failure the client is left unchanged. Admissibility (such as
exclusive contention with other clients) is abstracted as the ok input. -/
def kds_add_context (ok : Bool) (client : KdsClient) : Option XErr × KdsClient :=
  if ok then (none, { client with num_ctx := client.num_ctx + 1 })
  else (some XErr.EBUSY, client)

/-- Modelled from the spec: kds_del_context removes (cu_index, mode) from
the client context map when present, decrementing num_ctx; when the entry
is not found the client is left unchanged and an error is returned. -/
def kds_del_context (found : Bool) (client : KdsClient) : Option XErr × KdsClient :=
  if found && decide (0 < client.num_ctx) then
    (none, { client with num_ctx := client.num_ctx - 1 })
  else (some XErr.EINVAL, client)

/-- Outcomes of the external calls made by xocl_add_context:
xocl_icap_lock_bitstream (none on success, the returned error otherwise),
vzalloc of the uuid copy, and the kds_add_context admissibility. -/
structure AddCtxOracle where
  lockRet : Option XErr
  vzallocOk : Bool
  kdsAddOk : Bool
deriving DecidableEq

/-- Embedding of xocl_add_context (xocl_kds.c lines 38 to 74). When the
client has no open context it locks the bitstream, allocates and records
the uuid, then calls kds_add_context; the out block releases the uuid and
the bitstream lock whenever num_ctx is still zero on exit. -/
def xocl_add_context (o : AddCtxOracle) (xclbin : Nat) (s : CtxState) :
    Option XErr × CtxState :=
  let body : Option XErr × CtxState :=
    if s.client.num_ctx = 0 then
      match o.lockRet with
      | some e => (some e, s)
      | none =>
        let s1 : CtxState := { s with icapLock := s.icapLock + 1 }
        if o.vzallocOk then
          let s2 : CtxState :=
            { s1 with client := { s1.client with xclbin_id := some xclbin } }
          let r := kds_add_context o.kdsAddOk s2.client
          (r.1, { s2 with client := r.2 })
        else
          (some XErr.ENOMEM, s1)
    else
      let r := kds_add_context o.kdsAddOk s.client
      (r.1, { s with client := r.2 })
  let s3 := body.2
  if s3.client.num_ctx = 0 then
    (body.1, { s3 with client := { s3.client with xclbin_id := none },
                       icapLock := s3.icapLock - 1 })
  else
    (body.1, s3)

/-- Embedding of xocl_del_context (xocl_kds.c lines 76 to 116): error EINVAL
when no context was opened, EBUSY when the recorded xclbin differs from the
passed one, otherwise kds_del_context; the bitstream lock and the uuid are
released when num_ctx reaches zero. -/
def xocl_del_context (found : Bool) (xclbin : Nat) (s : CtxState) :
    Option XErr × CtxState :=
  match s.client.xclbin_id with
  | none => (some XErr.EINVAL, s)
  | some u =>
    if u ≠ xclbin then (some XErr.EBUSY, s)
    else
      let r := kds_del_context found s.client
      match r.1 with
      | some e => (some e, { s with client := r.2 })
      | none =>
        if r.2.num_ctx = 0 then
          (none, { s with client := { r.2 with xclbin_id := none },
                          icapLock := s.icapLock - 1 })
        else
          (none, { s with client := r.2 })

/-- Modelled from the spec: kds_fini_client aborts the outstanding commands
of the client and removes all of its contexts, emptying the context map. -/
def kds_fini_client (client : KdsClient) : KdsClient :=
  { client with num_ctx := 0 }

/-- Embedding of xocl_destroy_client (xocl_kds.c lines 293 to 307):
kds_fini_client, then unlock the bitstream and free the uuid when
xclbin_id is non-null, then free the client. -/
def xocl_destroy_client (s : CtxState) : CtxState :=
  let c := kds_fini_client s.client
  if c.xclbin_id.isSome then
    { s with client := { c with xclbin_id := none }, icapLock := s.icapLock - 1 }
  else
    { s with client := c }

/-- One context-path operation on a client, with the outcomes of its
external calls. -/
inductive CtxOp where
  | openCtx (o : AddCtxOracle) (xclbin : Nat)
  | closeCtx (found : Bool) (xclbin : Nat)

/-- State reached after one context operation. -/
def ctxStep (s : CtxState) (op : CtxOp) : CtxState :=
  match op with
  | CtxOp.openCtx o x => (xocl_add_context o x s).2
  | CtxOp.closeCtx f x => (xocl_del_context f x s).2

/-- State reached after a sequence of context operations. -/
def ctxRun (s : CtxState) (ops : List CtxOp) : CtxState :=
  ops.foldl ctxStep s

/-- A freshly created client (kzalloc in xocl_create_client): null
xclbin_id, empty context map, zero event counter, no lock held. -/
def initCtxState : CtxState :=
  ⟨⟨none, 0, 0⟩, 0⟩

/-- The bitstream-lock invariant: the recorded xclbin_id is non-null exactly
when the context map is non-empty, and exactly one icap lock reference is
held in that case. -/
def CtxInv (s : CtxState) : Prop :=
  (s.client.xclbin_id.isSome ↔ 0 < s.client.num_ctx) ∧
  s.icapLock = (if s.client.xclbin_id.isSome then 1 else 0)

/-- External outcomes inside xocl_command_ioctl: gem object lookup, the
execbuf flag check on the bo, kds_alloc_command, whether a callback
function was passed for the in-kernel path, allocation of the in-kernel
callback record, and the kds_add_command result. -/
structure ExecOracle where
  gemFound : Bool
  isExecbufBo : Bool
  allocOk : Bool
  cbFuncGiven : Bool
  inkernAllocOk : Bool
  kdsAddRet : Option XErr
deriving DecidableEq

/-- Result of one xocl_command_ioctl call: the synchronous return value
(none for success) and the writes performed on the ert_packet state word. -/
structure ExecResult where
  ret : Option XErr
  stateWrites : List (WriteSrc × ErtCmdState)
deriving DecidableEq

/-- Embedding of xocl_command_ioctl (xocl_kds.c lines 175 to 265): reject
EINVAL when the client has a null xclbin_id (no opened context), then
EDEADLK when the scheduler bad_state flag is set, then ENOENT when the gem
lookup fails, then EINVAL when the bo is not an execbuf; after these checks
the ioctl writes ERT_CMD_STATE_NEW into the command buffer state word,
allocates the kds command (ENOMEM on failure), optionally allocates the
in-kernel callback record (ENOMEM on failure), and returns the
kds_add_command result. -/
def xocl_command_ioctl (xclbin_id : Option Nat) (bad_state : Bool)
    (in_kernel : Bool) (o : ExecOracle) : ExecResult :=
  if xclbin_id = none then ⟨some XErr.EINVAL, []⟩
  else if bad_state then ⟨some XErr.EDEADLK, []⟩
  else if !o.gemFound then ⟨some XErr.ENOENT, []⟩
  else if !o.isExecbufBo then ⟨some XErr.EINVAL, []⟩
  else
    let w : List (WriteSrc × ErtCmdState) := [(WriteSrc.ioctl, ErtCmdState.new)]
    if !o.allocOk then ⟨some XErr.ENOMEM, w⟩
    else if in_kernel && o.cbFuncGiven && !o.inkernAllocOk then ⟨some XErr.ENOMEM, w⟩
    else ⟨o.kdsAddRet, w⟩

/-- A state-word write admissible under the amended C4: the value is one of
the five named states, the ioctl path writes only NEW, and the notify path
writes only the four terminal values. -/
def allowedWrite : WriteSrc × ErtCmdState → Bool
  | (WriteSrc.ioctl, ErtCmdState.new) => true
  | (WriteSrc.notify, ErtCmdState.completed) => true
  | (WriteSrc.notify, ErtCmdState.error) => true
  | (WriteSrc.notify, ErtCmdState.timeout) => true
  | (WriteSrc.notify, ErtCmdState.abort) => true
  | _ => false

/-- Whether a kds status is one of the four terminal values notify_execbuf
translates into an ERT state. -/
def isTerminal : KdsCmdStatus → Bool
  | KdsCmdStatus.completed => true
  | KdsCmdStatus.error => true
  | KdsCmdStatus.timeout => true
  | KdsCmdStatus.abort => true
  | _ => false

/-- The like-named ERT state of a terminal kds status. -/
def ertStateOf : KdsCmdStatus → Option ErtCmdState
  | KdsCmdStatus.completed => some ErtCmdState.completed
  | KdsCmdStatus.error => some ErtCmdState.error
  | KdsCmdStatus.timeout => some ErtCmdState.timeout
  | KdsCmdStatus.abort => some ErtCmdState.abort
  | _ => none

/-- Tag a state value as a notify-path write. -/
def notifyTag (v : ErtCmdState) : WriteSrc × ErtCmdState :=
  (WriteSrc.notify, v)

end XRT

namespace XRT

/-- C2 (counterexample): with the bad-state flag set and a client that has
no opened context, the submission fails with EINVAL, not EDEADLK, so the
claimed DEADLOCK-first ordering is false at this input. -/
theorem command_ioctl_badstate_counterexample :
    (xocl_command_ioctl none true false
        ⟨true, true, true, false, true, none⟩).ret = some XErr.EINVAL ∧
    XErr.EINVAL ≠ XErr.EDEADLK := by
  decide

/-- C2 (amended): the no-context check runs first, so a client with a null
xclbin_id fails with EINVAL regardless of bad state; only a client that
holds a context observes EDEADLK when the bad-state flag is set. -/
theorem command_ioctl_reject_order (xid : Option Nat) (bad : Bool)
    (ik : Bool) (o : ExecOracle) :
    (xid = none → (xocl_command_ioctl xid bad ik o).ret = some XErr.EINVAL) ∧
    (xid ≠ none → bad = true →
      (xocl_command_ioctl xid bad ik o).ret = some XErr.EDEADLK) := by
  constructor
  · intro h
    simp [xocl_command_ioctl, h]
  · intro h hb
    simp [xocl_command_ioctl, h, hb]

/-- C2 witness: a client holding a context observes EDEADLK under bad state. -/
theorem command_ioctl_reject_order_witness :
    (xocl_command_ioctl (some 0) true false
        ⟨true, true, true, false, true, none⟩).ret = some XErr.EDEADLK :=
  (command_ioctl_reject_order (some 0) true false
      ⟨true, true, true, false, true, none⟩).2 (by decide) rfl

/-- C4 (counterexample): a successful submission path writes NEW into the
state word from the command ioctl, which is not the notify path, so the
claim that every state-word mutation is performed by the notify path is
false at this input. -/
theorem state_write_source_counterexample :
    (xocl_command_ioctl (some 0) false false
        ⟨true, true, true, false, true, none⟩).stateWrites
      = [(WriteSrc.ioctl, ErtCmdState.new)] ∧
    WriteSrc.ioctl ≠ WriteSrc.notify := by
  decide

/-- C4 (amended): every write either path performs on the state word is to
one of NEW, COMPLETED, ERROR, TIMEOUT, ABORT; the ioctl path writes only
NEW and the notify path writes only the four terminal values. -/
theorem state_writes_allowed :
    (∀ (xid : Option Nat) (bad ik : Bool) (o : ExecOracle),
      (xocl_command_ioctl xid bad ik o).stateWrites.all allowedWrite = true) ∧
    (∀ (st : KdsCmdStatus) (cb : Bool) (cl : KdsClient),
      (notify_execbuf st cb cl).1.stateWrites.all allowedWrite = true) := by
  constructor
  · intro xid bad ik o
    unfold xocl_command_ioctl
    repeat' split
    all_goals simp [allowedWrite]
  · intro st cb cl
    cases st <;> cases cb <;> simp [notify_execbuf, allowedWrite]

/-- C5: close_context on a client whose recorded xclbin id differs from the
passed one rejects with EBUSY and leaves the whole state unchanged. -/
theorem del_context_wrong_xclbin (f : Bool) (x u : Nat) (s : CtxState)
    (hx : s.client.xclbin_id = some u) (hne : u ≠ x) :
    xocl_del_context f x s = (some XErr.EBUSY, s) := by
  simp [xocl_del_context, hx, hne]

/-- C5 witness: concrete mismatching close. -/
theorem del_context_wrong_xclbin_witness :
    xocl_del_context true 9 ⟨⟨some 7, 1, 0⟩, 1⟩
      = (some XErr.EBUSY, ⟨⟨some 7, 1, 0⟩, 1⟩) :=
  del_context_wrong_xclbin true 9 7 ⟨⟨some 7, 1, 0⟩, 1⟩ rfl (by decide)

/-- C6: on a non-negative event counter, poll reports POLLIN exactly when
the counter is positive; a readable poll decrements the counter by one and
a non-readable poll leaves it unchanged. -/
theorem poll_client_readable_iff (ev : Int) (h : 0 ≤ ev) :
    ((xocl_poll_client ev).2 = POLLIN ↔ 0 < ev) ∧
    (0 < ev → (xocl_poll_client ev).1 = ev - 1) ∧
    (ev = 0 → (xocl_poll_client ev).1 = ev ∧ (xocl_poll_client ev).2 = 0) := by
  unfold xocl_poll_client atomic_dec_if_positive POLLIN
  by_cases h0 : ev = 0
  · subst h0
    norm_num
  · have hpos : 0 < ev := lt_of_le_of_ne h (Ne.symm h0)
    have h1 : ¬ ev - 1 < 0 := by omega
    have h2 : ¬ ev - 1 = -1 := by omega
    simp [h1, h2, hpos, h0]

/-- C6 witness: counter two is readable and decrements to one. -/
theorem poll_client_readable_iff_witness :
    ((xocl_poll_client 2).2 = POLLIN ↔ 0 < (2 : Int)) ∧
    (0 < (2 : Int) → (xocl_poll_client 2).1 = 2 - 1) ∧
    ((2 : Int) = 0 → (xocl_poll_client 2).1 = 2 ∧ (xocl_poll_client 2).2 = 0) :=
  poll_client_readable_iff 2 (by decide)

/-- C7: when the u32 accumulators do not wrap, xrt_cu_check leaves each
accumulator equal to its prior value plus the delta the driver check()
returned. -/
theorem cu_check_accumulates (xcu : XrtCu) (st : XcuStatus)
    (hd : xcu.done_cnt + st.num_done < UINT32_MOD)
    (hr : xcu.ready_cnt + st.num_ready < UINT32_MOD) :
    (xrt_cu_check xcu st).done_cnt = xcu.done_cnt + st.num_done ∧
    (xrt_cu_check xcu st).ready_cnt = xcu.ready_cnt + st.num_ready := by
  simp [xrt_cu_check, Nat.mod_eq_of_lt hd, Nat.mod_eq_of_lt hr]

/-- C7 witness: concrete accumulation. -/
theorem cu_check_accumulates_witness :
    (xrt_cu_check ⟨3, 5⟩ ⟨2, 1⟩).done_cnt = 3 + 2 ∧
    (xrt_cu_check ⟨3, 5⟩ ⟨2, 1⟩).ready_cnt = 5 + 1 :=
  cu_check_accumulates ⟨3, 5⟩ ⟨2, 1⟩ (by decide) (by decide)

/-- C8 (counterexample): with zero credits available, alloc_credit reserves
nothing, so the subsequent free_credit of one leaves one credit where zero
were available: the round trip does not restore every CU state. -/
theorem credit_roundtrip_counterexample :
    ¬ free_credit (alloc_credit ⟨0, 4⟩).2 1 = (⟨0, 4⟩ : XcuCore) := by
  decide

/-- C8 (amended): peek_credit is side-effect-free on every state (repeated
peeks included), and whenever at least one credit is available, so that
alloc_credit actually reserves one, the alloc then free_credit of one
restores the state. -/
theorem credit_peek_roundtrip (core : XcuCore) :
    (peek_credit core).2 = core ∧
    (peek_credit (peek_credit core).2).2 = core ∧
    (0 < core.credits → free_credit (alloc_credit core).2 1 = core) := by
  refine ⟨rfl, rfl, ?_⟩
  intro h
  rcases core with ⟨c, m⟩
  simp only [alloc_credit, free_credit]
  simp at h
  simp [h]
  omega

/-- C8 witness: the round trip restores a state holding two credits. -/
theorem credit_peek_roundtrip_witness :
    free_credit (alloc_credit ⟨2, 4⟩).2 1 = (⟨2, 4⟩ : XcuCore) :=
  (credit_peek_roundtrip ⟨2, 4⟩).2.2 (by decide)

end XRT

namespace XRT

/-- C3: on each of the four terminal statuses, notify_execbuf writes exactly
the like-named terminal state into the command state word, releases the gem
buffer handle, and either schedules the in-kernel callback work (leaving
the event counter alone) or increments the event counter and wakes the
client waitq. -/
theorem notify_execbuf_terminal (st : KdsCmdStatus) (cb : Bool)
    (cl : KdsClient) (h : isTerminal st = true) :
    (notify_execbuf st cb cl).1.stateWrites = (ertStateOf st).toList.map notifyTag ∧
    (ertStateOf st).isSome = true ∧
    (notify_execbuf st cb cl).1.gemReleased = true ∧
    (cb = true → (notify_execbuf st cb cl).1.workScheduled = true ∧
      (notify_execbuf st cb cl).1.eventIncremented = false ∧
      (notify_execbuf st cb cl).2 = cl) ∧
    (cb = false → (notify_execbuf st cb cl).1.workScheduled = false ∧
      (notify_execbuf st cb cl).1.eventIncremented = true ∧
      (notify_execbuf st cb cl).1.wokeClient = true ∧
      (notify_execbuf st cb cl).2.event = cl.event + 1) := by
  cases st <;> simp [isTerminal] at h <;>
    cases cb <;> simp [notify_execbuf, ertStateOf, notifyTag]

/-- C3 witness: a completed command with no in-kernel callback. -/
theorem notify_execbuf_terminal_witness :
    (notify_execbuf KdsCmdStatus.completed false ⟨none, 0, 0⟩).1.stateWrites
        = (ertStateOf KdsCmdStatus.completed).toList.map notifyTag ∧
    (ertStateOf KdsCmdStatus.completed).isSome = true ∧
    (notify_execbuf KdsCmdStatus.completed false ⟨none, 0, 0⟩).1.gemReleased = true ∧
    (false = true →
      (notify_execbuf KdsCmdStatus.completed false ⟨none, 0, 0⟩).1.workScheduled = true ∧
      (notify_execbuf KdsCmdStatus.completed false ⟨none, 0, 0⟩).1.eventIncremented = false ∧
      (notify_execbuf KdsCmdStatus.completed false ⟨none, 0, 0⟩).2 = ⟨none, 0, 0⟩) ∧
    (false = false →
      (notify_execbuf KdsCmdStatus.completed false ⟨none, 0, 0⟩).1.workScheduled = false ∧
      (notify_execbuf KdsCmdStatus.completed false ⟨none, 0, 0⟩).1.eventIncremented = true ∧
      (notify_execbuf KdsCmdStatus.completed false ⟨none, 0, 0⟩).1.wokeClient = true ∧
      (notify_execbuf KdsCmdStatus.completed false ⟨none, 0, 0⟩).2.event
        = (⟨none, 0, 0⟩ : KdsClient).event + 1) :=
  notify_execbuf_terminal KdsCmdStatus.completed false ⟨none, 0, 0⟩ (by decide)

/-- C10: on a non-terminal status, notify_execbuf performs no write on the
command state word, while still releasing the gem buffer handle and
delivering the completion signal exactly as for terminal statuses. -/
theorem notify_execbuf_nonterminal (st : KdsCmdStatus) (cb : Bool)
    (cl : KdsClient) (h : isTerminal st = false) :
    (notify_execbuf st cb cl).1.stateWrites = [] ∧
    (notify_execbuf st cb cl).1.gemReleased = true ∧
    (cb = true → (notify_execbuf st cb cl).1.workScheduled = true ∧
      (notify_execbuf st cb cl).1.eventIncremented = false ∧
      (notify_execbuf st cb cl).2 = cl) ∧
    (cb = false → (notify_execbuf st cb cl).1.workScheduled = false ∧
      (notify_execbuf st cb cl).1.eventIncremented = true ∧
      (notify_execbuf st cb cl).1.wokeClient = true ∧
      (notify_execbuf st cb cl).2.event = cl.event + 1) := by
  cases st <;> simp [isTerminal] at h <;>
    cases cb <;> simp [notify_execbuf]

/-- C10 witness: a running status with no in-kernel callback. -/
theorem notify_execbuf_nonterminal_witness :
    (notify_execbuf KdsCmdStatus.running false ⟨none, 0, 0⟩).1.stateWrites = [] ∧
    (notify_execbuf KdsCmdStatus.running false ⟨none, 0, 0⟩).1.gemReleased = true ∧
    (false = true →
      (notify_execbuf KdsCmdStatus.running false ⟨none, 0, 0⟩).1.workScheduled = true ∧
      (notify_execbuf KdsCmdStatus.running false ⟨none, 0, 0⟩).1.eventIncremented = false ∧
      (notify_execbuf KdsCmdStatus.running false ⟨none, 0, 0⟩).2 = ⟨none, 0, 0⟩) ∧
    (false = false →
      (notify_execbuf KdsCmdStatus.running false ⟨none, 0, 0⟩).1.workScheduled = false ∧
      (notify_execbuf KdsCmdStatus.running false ⟨none, 0, 0⟩).1.eventIncremented = true ∧
      (notify_execbuf KdsCmdStatus.running false ⟨none, 0, 0⟩).1.wokeClient = true ∧
      (notify_execbuf KdsCmdStatus.running false ⟨none, 0, 0⟩).2.event
        = (⟨none, 0, 0⟩ : KdsClient).event + 1) :=
  notify_execbuf_nonterminal KdsCmdStatus.running false ⟨none, 0, 0⟩ (by decide)

/-- C9: when open_context fails on a client whose context map was empty and
which held no lock, the whole recorded state is unchanged: xclbin_id is
still null, the context map still empty, no lock reference held. -/
theorem add_context_failed_first_open (o : AddCtxOracle) (x : Nat)
    (s : CtxState) (h0 : s.client.num_ctx = 0)
    (hx : s.client.xclbin_id = none) (hl : s.icapLock = 0)
    (hfail : (xocl_add_context o x s).1 ≠ none) :
    (xocl_add_context o x s).2 = s ∧
    (xocl_add_context o x s).2.client.xclbin_id = none ∧
    (xocl_add_context o x s).2.client.num_ctx = 0 := by
  rcases s with ⟨⟨xid, n, ev⟩, lk⟩
  simp only at h0 hx hl
  subst h0
  subst hx
  subst hl
  rcases o with ⟨lr, vz, ka⟩
  cases lr <;> cases vz <;> cases ka <;>
    simp_all [xocl_add_context, kds_add_context]

/-- C9 witness: a first open whose kds_add_context is refused leaves the
fresh client state intact. -/
theorem add_context_failed_first_open_witness :
    (xocl_add_context ⟨none, true, false⟩ 7 initCtxState).2 = initCtxState ∧
    (xocl_add_context ⟨none, true, false⟩ 7 initCtxState).2.client.xclbin_id = none ∧
    (xocl_add_context ⟨none, true, false⟩ 7 initCtxState).2.client.num_ctx = 0 :=
  add_context_failed_first_open ⟨none, true, false⟩ 7 initCtxState
    (by decide) (by decide) (by decide) (by decide)

end XRT

namespace XRT

/-- The invariant holds of a freshly created client. -/
theorem ctxInv_init : CtxInv initCtxState := by
  simp [CtxInv, initCtxState]

/-- xocl_add_context preserves the bitstream-lock invariant. -/
theorem ctxInv_add (o : AddCtxOracle) (x : Nat) (s : CtxState)
    (h : CtxInv s) : CtxInv (xocl_add_context o x s).2 := by
  rcases s with ⟨⟨xid, n, ev⟩, lk⟩
  rcases h with ⟨h1, h2⟩
  simp only at h1 h2
  rcases o with ⟨lr, vz, ka⟩
  by_cases hn : n = 0
  · subst hn
    have hx : xid = none := by
      cases xid with
      | none => rfl
      | some u => simp at h1
    subst hx
    simp at h2
    subst h2
    cases lr <;> cases vz <;> cases ka <;>
      simp [xocl_add_context, kds_add_context, CtxInv]
  · have hpos : 0 < n := Nat.pos_of_ne_zero hn
    have hx : ∃ u, xid = some u := by
      cases xid with
      | none => simp at h1; omega
      | some u => exact ⟨u, rfl⟩
    rcases hx with ⟨u, hu⟩
    subst hu
    simp at h2
    subst h2
    cases ka <;>
      (simp [xocl_add_context, kds_add_context, CtxInv, hn]; try omega)

/-- xocl_del_context preserves the bitstream-lock invariant. -/
theorem ctxInv_del (f : Bool) (x : Nat) (s : CtxState)
    (h : CtxInv s) : CtxInv (xocl_del_context f x s).2 := by
  rcases s with ⟨⟨xid, n, ev⟩, lk⟩
  rcases h with ⟨h1, h2⟩
  simp only at h1 h2
  cases xid with
  | none =>
    simp [xocl_del_context, CtxInv]
    simp at h1 h2
    omega
  | some u =>
    simp at h1 h2
    subst h2
    by_cases hux : u = x
    · subst hux
      cases f with
      | false => simp [xocl_del_context, kds_del_context, CtxInv, h1]
      | true =>
        have hn : 0 < n := h1
        by_cases h1n : n - 1 = 0 <;>
          (simp [xocl_del_context, kds_del_context, CtxInv, hn, h1n]; try omega)
    · simp [xocl_del_context, CtxInv, hux, h1]

/-- One context operation preserves the bitstream-lock invariant. -/
theorem ctxInv_step (s : CtxState) (op : CtxOp) (h : CtxInv s) :
    CtxInv (ctxStep s op) := by
  cases op with
  | openCtx o x => exact ctxInv_add o x s h
  | closeCtx f x => exact ctxInv_del f x s h

/-- Any sequence of context operations preserves the invariant. -/
theorem ctxInv_run (ops : List CtxOp) (s : CtxState) (h : CtxInv s) :
    CtxInv (ctxRun s ops) := by
  induction ops generalizing s with
  | nil => exact h
  | cons op rest ih => exact ih (ctxStep s op) (ctxInv_step s op h)

/-- Under the invariant, destroying the client empties the context map and
drops the last bitstream lock reference. -/
theorem ctxInv_destroy (s : CtxState) (h : CtxInv s) :
    (xocl_destroy_client s).icapLock = 0 ∧
    (xocl_destroy_client s).client.num_ctx = 0 ∧
    (xocl_destroy_client s).client.xclbin_id = none := by
  rcases s with ⟨⟨xid, n, ev⟩, lk⟩
  rcases h with ⟨h1, h2⟩
  simp only at h1 h2
  cases xid with
  | none =>
    simp at h2
    simp [xocl_destroy_client, kds_fini_client, h2]
  | some u =>
    simp at h2
    simp [xocl_destroy_client, kds_fini_client, h2]

/-- C1: starting from a fresh client, after any sequence of open_context and
close_context operations the recorded xclbin_id is non-null exactly when
the context map is non-empty, in which case exactly one bitstream lock
reference is held (so the first successful open acquired it and the
emptying close released it); destroying the client releases the lock. -/
theorem client_ctx_lock_invariant (ops : List CtxOp) :
    ((ctxRun initCtxState ops).client.xclbin_id.isSome ↔
      0 < (ctxRun initCtxState ops).client.num_ctx) ∧
    (ctxRun initCtxState ops).icapLock =
      (if (ctxRun initCtxState ops).client.xclbin_id.isSome then 1 else 0) ∧
    (xocl_destroy_client (ctxRun initCtxState ops)).icapLock = 0 := by
  have h := ctxInv_run ops initCtxState ctxInv_init
  exact ⟨h.1, h.2, (ctxInv_destroy (ctxRun initCtxState ops) h).1⟩

end XRT
